import Mathlib

/-!
Verification of the UKV RocksDB driver (`src/backend_rocksdb.cpp`) and the
graph helper types (`include/ukv_graph.hpp`) against the natural-language
specification.

The engine state is modelled as a map from (column-family, key) to an
optional byte string; RocksDB primitives (`Get`, `MultiGet`, `Put`,
`Delete`/`SingleDelete`, `WriteBatch`+`Write`, iterator `Seek`/`Next`)
are given their documented observable semantics over this map, and the
driver functions are translated statement by statement on top of them.
Keys are 64-bit integers and values byte strings; both are represented
with `Nat`, with `% 2 ^ 32` inserted exactly where the source casts a
size to the 32-bit `ukv_val_len_t`.
-/

set_option autoImplicit false

namespace UStore

/-- Constant `ukv_val_len_missing_k` (backend_rocksdb.cpp:43): the maximal
32-bit value, used as the length sentinel for an absent key. -/
def ukv_val_len_missing_k : Nat := 2 ^ 32 - 1

/-- Observable state of the engine: column family id and key to optional
value bytes.  Column family id 0 is the default column family. -/
abbrev Store := Nat → Nat → Option (List Nat)

/-- The freshly created database: no key present anywhere. -/
def emptyStore : Store := fun _ _ => none

/-- Resolution `task.col ? task.col : db->DefaultColumnFamily()` used by
every driver function: a null collection pointer means the default column
family (id 0). -/
def resolveCol (col : Option Nat) : Nat := col.getD 0

/-- Observable effect of rocksdb `Put(col, key, value)`: upsert. -/
def storePut (s : Store) (c k : Nat) (v : List Nat) : Store :=
  fun c' k' => if c' = c then (if k' = k then some v else s c' k') else s c' k'

/-- Observable effect of rocksdb `Delete`/`SingleDelete(col, key)`: the key
becomes absent.  (`SingleDelete` differs from `Delete` only in engine
internals and usage constraints, not in the resulting visible state.) -/
def storeDel (s : Store) (c k : Nat) : Store :=
  fun c' k' => if c' = c then (if k' = k then none else s c' k') else s c' k'

/-- One entry of a rocksdb `WriteBatch` (or one operation buffered in a
rocksdb transaction). -/
inductive BatchOp where
  | put (col key : Nat) (val : List Nat)
  | del (col key : Nat)

/-- Effect of a single batch entry on the store. -/
def applyOp (s : Store) : BatchOp → Store
  | .put c k v => storePut s c k v
  | .del c k => storeDel s c k

/-- Effect of `db->Write(options, &batch)`: the batch entries are applied
in order, atomically (the engine contract of `WriteBatch`). -/
def applyBatch (s : Store) : List BatchOp → Store
  | [] => s
  | op :: rest => applyBatch (applyOp s op) rest

/-- One decoded write task (helpers.hpp `write_task_t`): a collection,
a key, and an optional value where `none` models the null value pointer
that encodes deletion (`task.is_deleted()`). -/
structure WriteTask where
  col : Option Nat
  key : Nat
  val : Option (List Nat)

/-- Member `write_task_t.is_deleted()`: the value pointer is null. -/
def WriteTask.is_deleted (t : WriteTask) : Bool := t.val.isNone

/-- The batch entry built for one task, mirroring the ternary
`task.is_deleted() ? Delete(col, key) : Put(col, key, view)` used in both
`write_one` and `write_many`. -/
def taskOp (t : WriteTask) : BatchOp :=
  if t.is_deleted then BatchOp.del (resolveCol t.col) t.key
  else BatchOp.put (resolveCol t.col) t.key (t.val.getD [])

/-- Store effect of one write task executed directly against the engine. -/
def applyWriteTask (s : Store) (t : WriteTask) : Store :=
  applyOp s (taskOp t)

/-- Function `write_one` (backend_rocksdb.cpp:111): the single-task fast
path.  With a transaction the operation is buffered on the transaction
(`txn->SingleDelete`/`txn->Put`); otherwise it is applied to the engine
directly.  Returns the resulting store and transaction buffer. -/
def write_one (s : Store) (txn : Option (List BatchOp)) (t : WriteTask) :
    Store × Option (List BatchOp) :=
  match txn with
  | some ops => (s, some (ops ++ [taskOp t]))
  | none => (applyWriteTask s t, none)

/-- The `WriteBatch` built by the loop in `write_many`
(backend_rocksdb.cpp:151): one entry per task, in task order. -/
def write_many_batch : List WriteTask → List BatchOp
  | [] => []
  | t :: ts => taskOp t :: write_many_batch ts

/-- Function `write_many` (backend_rocksdb.cpp:133): with a transaction
each task is buffered on the transaction (`txn->Delete`/`txn->Put`);
otherwise a single `WriteBatch` is built and applied with one
`db->Write`. -/
def write_many (s : Store) (txn : Option (List BatchOp)) (ts : List WriteTask) :
    Store × Option (List BatchOp) :=
  match txn with
  | some ops => (s, some (ops ++ write_many_batch ts))
  | none => (applyBatch s (write_many_batch ts), none)

/-- Result of `ukv_write`: final store, final transaction buffer, error. -/
structure WriteResult where
  store : Store
  txnOps : Option (List BatchOp)
  error : Option String

/-- Function `ukv_write` (backend_rocksdb.cpp:164): decodes the strided
inputs into tasks and dispatches `tasks_count == 1 ? write_one :
write_many`.  `Put`/`Delete` on valid handles return ok statuses, so
`export_error` leaves the error null. -/
def ukv_write (s : Store) (txn : Option (List BatchOp)) (ts : List WriteTask) :
    WriteResult :=
  match ts with
  | [t] =>
    let r := write_one s txn t
    ⟨r.1, r.2, none⟩
  | _ =>
    let r := write_many s txn ts
    ⟨r.1, r.2, none⟩

/-- One decoded read task (helpers.hpp `read_task_t`). -/
structure ReadTask where
  col : Option Nat
  key : Nat

/-- Function `read_one` (backend_rocksdb.cpp:210): a single `Get`; the
status `IsNotFound()` exactly when the key is absent, in which case the
exported length is `ukv_val_len_missing_k` and no bytes are copied;
otherwise the length is the value size cast to the 32-bit
`ukv_val_len_t` and the bytes follow it on the tape. -/
def read_one (s : Store) (t : ReadTask) : Nat × List Nat :=
  match s (resolveCol t.col) t.key with
  | none => (ukv_val_len_missing_k, [])
  | some v => (v.length % 2 ^ 32, v)

/-- The string rocksdb `MultiGet` leaves in `vals[i]`: the value bytes
when the key is present, the empty string when the status is
`IsNotFound()` (the statuses vector is ignored by `read_many`). -/
def multiGetVal (s : Store) (t : ReadTask) : List Nat :=
  (s (resolveCol t.col) t.key).getD []

/-- The length exported for position `i` by `read_many`
(backend_rocksdb.cpp:286): `if (bytes_in_value)` export the size cast to
`ukv_val_len_t`, `else` export the missing sentinel. -/
def read_many_len (v : List Nat) : Nat :=
  if v.length ≠ 0 then v.length % 2 ^ 32 else ukv_val_len_missing_k

/-- Concatenation of the value bytes on the output tape (an empty string
contributes no bytes, so copying only non-empty values, as the source
does, yields the same tape). -/
def concatBytes : List (List Nat) → List Nat
  | [] => []
  | v :: rest => v ++ concatBytes rest

/-- Function `read_many` (backend_rocksdb.cpp:247): one `MultiGet`, then
the lengths array and the concatenated bytes are laid out on the tape. -/
def read_many (s : Store) (ts : List ReadTask) : List Nat × List Nat :=
  (ts.map (fun t => read_many_len (multiGetVal s t)),
   concatBytes (ts.map (fun t => multiGetVal s t)))

/-- Result of `ukv_read`: error, and the two output pointers; `none`
means the out-pointer was never written. -/
structure ReadResult where
  error : Option String
  lens : Option (List Nat)
  vals : Option (List Nat)

/-- Function `ukv_read` (backend_rocksdb.cpp:298): refuses a
non-transparent transactional read before touching the arena or the
outputs, otherwise dispatches `tasks_count == 1 ? read_one : read_many`.
Inside a transaction reads go through `txn->Get` at the transaction's
snapshot, which over a single store state coincides with the plain
read. -/
def ukv_read (s : Store) (txn : Bool) (read_transparent : Bool)
    (ts : List ReadTask) : ReadResult :=
  if txn && !read_transparent then
    ⟨some "RocksDB only supports transparent reads!", none, none⟩
  else
    match ts with
    | [t] =>
      let r := read_one s t
      ⟨none, some [r.1], some r.2⟩
    | _ =>
      let r := read_many s ts
      ⟨none, some r.1, some r.2⟩

/-- One decoded scan task (helpers.hpp `scan_task_t`): collection,
minimal key, and requested number of keys (`task.length`). -/
structure ScanTask where
  col : Option Nat
  min_key : Nat
  length : Nat

/-- Iterator state after `it->Seek(min_key)`: the entries of the column
family, as (key, value-size) pairs in iteration order, starting from the
first key not below `min_key`.  For a sorted entry list this is the
filter keeping keys `≥ min_key`. -/
def seekFrom (entries : List (Nat × Nat)) (min_key : Nat) : List (Nat × Nat) :=
  entries.filter (fun e => min_key ≤ e.1)

/-- The inner loop of `ukv_scan` (backend_rocksdb.cpp:404):
`for (; it->Valid() && i != task.length; i++, it->Next())`.  Note that it
advances the OUTER task index `i`, using it both as the write cursor into
the tape and as the bound checked against `task.length`.  Returns the
list of (tape slot, key, value-size cast to 32 bits) writes and the final
value of `i`. -/
def scan_inner : List (Nat × Nat) → Nat → Nat → List (Nat × Nat × Nat) × Nat
  | [], i, _ => ([], i)
  | e :: rest, i, len =>
    if i = len then ([], i)
    else
      let r := scan_inner rest (i + 1) len
      ((i, e.1, e.2 % 2 ^ 32) :: r.1, r.2)

/-- The outer loop of `ukv_scan` (backend_rocksdb.cpp:391):
`for (ukv_size_t i = 0; i != c_min_tasks_count; ++i)`.  Because the inner
loop mutates `i`, the index can jump past `c_min_tasks_count`, after
which the loop keeps running and `tasks[i]` is read out of bounds;
that undefined behaviour is modelled as `none`, as is fuel exhaustion
(the concrete loop would keep indexing until the 32-bit counter wraps). -/
def scan_outer (ents : Option Nat → List (Nat × Nat)) (tasks : List ScanTask)
    (n : Nat) :
    Nat → Nat → List (Nat × Nat × Nat) → Option (List (Nat × Nat × Nat))
  | 0, _, _ => none
  | fuel + 1, i, acc =>
    if i = n then some acc
    else
      match tasks[i]? with
      | none => none
      | some t =>
        let r := scan_inner (seekFrom (ents t.col) t.min_key) i t.length
        scan_outer ents tasks n fuel (r.2 + 1) (acc ++ r.1)

/-- Result of `ukv_scan`: the error; whether the output pointers were
written (the tape of `c_min_tasks_count` key slots and length slots is
allocated and exported before the loop); and the writes the loop
performed, `none` marking undefined behaviour. -/
structure ScanResult where
  error : Option String
  outputs_written : Bool
  writes : Option (List (Nat × Nat × Nat))

/-- Function `ukv_scan` (backend_rocksdb.cpp:340): refuses a
non-transparent transactional scan before touching the arena, otherwise
allocates one key slot and one length slot per task and runs the loop. -/
def ukv_scan (ents : Option Nat → List (Nat × Nat)) (txn : Bool)
    (read_transparent : Bool) (tasks : List ScanTask) (fuel : Nat) : ScanResult :=
  if txn && !read_transparent then
    ⟨some "RocksDB only supports transparent reads!", false, none⟩
  else
    ⟨none, true, scan_outer ents tasks tasks.length fuel 0 []⟩

/-- The collection contents of the specification's seed scan scenario:
keys 5, 10, 12, 20, 25, 30 with the sizes of their values. -/
def demoEntries : Option Nat → List (Nat × Nat) :=
  fun _ => [(5, 2), (10, 3), (12, 3), (20, 4), (25, 4), (30, 5)]

/-- Function `export_error` (backend_rocksdb.cpp:70): maps a rocksdb
status to the error channel and returns `true` exactly when the status
is NOT ok (the error string is set in that case). -/
def export_error (ok : Bool) : Bool := !ok

/-- Result of `ukv_collection_open`: the registry
`db_wrapper->columns` after the call, the value written to `*c_col`
(`none` when the out-pointer was never written), and the error. -/
structure ColOpenResult where
  columns : List (String × Nat)
  out_col : Option Nat
  error : Option String

/-- Function `ukv_collection_open` (backend_rocksdb.cpp:411).  A null
name returns the default column family handle (id 0); a known name
returns its registered handle; otherwise `CreateColumnFamily` is called
(`create_ok` its status — ok for a fresh valid name per the engine
contract, with `fresh` the new handle) and the result is registered and
written to `*c_col` only under `if (export_error(status, c_error))`,
i.e. only when creation FAILED. -/
def ukv_collection_open (cols : List (String × Nat)) (name : Option String)
    (create_ok : Bool) (fresh : Nat) : ColOpenResult :=
  match name with
  | none => ⟨cols, some 0, none⟩
  | some nm =>
    match cols.find? (fun c => c.1 == nm) with
    | some c => ⟨cols, some c.2, none⟩
    | none =>
      if export_error create_ok then
        ⟨cols ++ [(nm, fresh)], some fresh, some "Failure"⟩
      else
        ⟨cols, none, none⟩

/-- Result of `ukv_collection_remove`: the store, the handles that were
destroyed, and the error. -/
structure ColRemoveResult where
  store : Store
  destroyed : List Nat
  error : Option String

/-- Function `ukv_collection_remove` (backend_rocksdb.cpp:439): for every
registered handle whose name matches, calls
`DestroyColumnFamilyHandle(handle)` — which frees the handle object and
returns ok on a live handle, and deletes NO entries (dropping the data
would be `DropColumnFamily`).  The handle is not even removed from
`db_wrapper->columns`.  The store is threaded through untouched because
no engine call in this function mutates it. -/
def ukv_collection_remove (st : Store) (cols : List (String × Nat))
    (name : String) : ColRemoveResult :=
  match cols with
  | [] => ⟨st, [], none⟩
  | c :: rest =>
    if c.1 = name then
      let r := ukv_collection_remove st rest name
      ⟨r.store, c.2 :: r.destroyed, r.error⟩
    else
      ukv_collection_remove st rest name

/-- Result of `ukv_open`: the value written to `*c_db` (`none` when the
out-pointer was never written; `some valid` a wrapper whose inner engine
handle is open exactly when `valid`), and the error. -/
structure OpenResult where
  db_out : Option Bool
  error : Option String

/-- Function `ukv_open` (backend_rocksdb.cpp:85): allocates the wrapper,
attempts the engine open (`open_ok` its status), sets the error string on
failure, and then stores the wrapper into `*c_db` UNCONDITIONALLY
(line 108 runs on both paths). -/
def ukv_open (open_ok : Bool) : OpenResult :=
  ⟨some open_ok, if open_ok then none else some "Open Error"⟩

/-- Type `neighborship_t` (ukv_graph.hpp:28): one directed slice of an
edge, a (neighbor id, edge id) pair of 64-bit keys. -/
structure neighborship_t where
  neighbor_id : Nat
  edge_id : Nat

/-- The friend `operator<` on two `neighborship_t` (ukv_graph.hpp:32),
bit for bit: `(a.neighbor_id < b.neighbor_id) | ((a.neighbor_id ==
b.neighbor_id) | (a.edge_id < b.edge_id))` — note the second `|` where a
lexicographic comparison needs `&`. -/
def neighborship_lt (a b : neighborship_t) : Bool :=
  (decide (a.neighbor_id < b.neighbor_id)) ||
    ((a.neighbor_id == b.neighbor_id) || (decide (a.edge_id < b.edge_id)))

/-- The friend `operator==` on two `neighborship_t` (ukv_graph.hpp:35),
bit for bit: `(a.neighbor_id == b.neighbor_id) & (a.edge_id < b.edge_id)`
— note the `<` where equality needs `==`. -/
def neighborship_eq (a b : neighborship_t) : Bool :=
  (a.neighbor_id == b.neighbor_id) && (decide (a.edge_id < b.edge_id))

/-- The lexicographic strict order on (neighbor_id, edge_id) that the
specification claims `operator<` computes. -/
def neighborship_lex_lt (a b : neighborship_t) : Bool :=
  (decide (a.neighbor_id < b.neighbor_id)) ||
    ((a.neighbor_id == b.neighbor_id) && (decide (a.edge_id < b.edge_id)))

/-! ## Helper lemmas -/

/-- Applying the batch that `write_many` builds equals applying the tasks
to the store one by one, in order. -/
theorem applyBatch_write_many_batch (s : Store) (ts : List WriteTask) :
    applyBatch s (write_many_batch ts) = ts.foldl applyWriteTask s := by
  induction ts generalizing s with
  | nil => rfl
  | cons t ts ih =>
    show applyBatch (applyOp s (taskOp t)) (write_many_batch ts)
        = ts.foldl applyWriteTask (applyWriteTask s t)
    exact ih (applyOp s (taskOp t))

/-! ## Claims -/

/-- C1: with the database open and outside any transaction, writing a
value under a key through `ukv_write` and then reading the key through
`ukv_read` returns exactly that value — the reported length is the
value's length and the bytes are the value's bytes — while reading a key
that was never written reports the `ukv_val_len_missing_k` sentinel. -/
theorem c1_write_read_round_trip (s : Store) (col : Option Nat) (k : Nat)
    (v : List Nat) (hv : v.length < 2 ^ 32)
    (s' : Store) (col' : Option Nat) (k' : Nat)
    (habs : s' (resolveCol col') k' = none) :
    ukv_read (ukv_write s none [⟨col, k, some v⟩]).store false false [⟨col, k⟩]
      = ⟨none, some [v.length], some v⟩ ∧
    ukv_read s' false false [⟨col', k'⟩]
      = ⟨none, some [ukv_val_len_missing_k], some []⟩ := by
  constructor
  · have hstore : (ukv_write s none [⟨col, k, some v⟩]).store (resolveCol col) k
        = some v := by
      simp [ukv_write, write_one, applyWriteTask, taskOp, WriteTask.is_deleted,
        applyOp, storePut]
    simp [ukv_read, read_one, hstore]
    exact hv
  · simp [ukv_read, read_one, habs]

/-- Witness for C1 at a concrete input: value [2, 3] under key 1 of the
default collection, and the never-written key 9 of collection 5. -/
theorem c1_round_trip_witness :
    ukv_read (ukv_write emptyStore none [⟨none, 1, some [2, 3]⟩]).store
        false false [⟨none, 1⟩]
      = ⟨none, some [2], some [2, 3]⟩ ∧
    ukv_read emptyStore false false [⟨some 5, 9⟩]
      = ⟨none, some [ukv_val_len_missing_k], some []⟩ :=
  c1_write_read_round_trip emptyStore none 1 [2, 3] (by decide)
    emptyStore (some 5) 9 rfl

/-- C2 is refuted by the code: in any batch of size other than one the
`read_many` path ignores the `MultiGet` statuses and tests only
`vals[i].size()`, so a key PRESENT with the empty value is reported with
the `ukv_val_len_missing_k` sentinel instead of length 0.  Concretely:
key 1 holds the empty value, key 2 is absent, and the batch read of
[1, 2] reports the missing sentinel at both positions. -/
theorem c2_batch_empty_reported_missing :
    ukv_read (storePut emptyStore 0 1 []) false false [⟨none, 1⟩, ⟨none, 2⟩]
      = ⟨none, some [ukv_val_len_missing_k, ukv_val_len_missing_k], some []⟩ :=
  rfl

/-- C4 is refuted by the code: on the specification's own seed scenario —
one scan task over keys {5, 10, 12, 20, 25, 30} with min_key 10 and
max_count 5 — the inner loop advances the outer task index `i` to 5,
writing to tape slots 0..4 although the tape holds only
`c_min_tasks_count = 1` key slot and 1 length slot, and the outer loop
then reads `tasks[6]` out of bounds instead of terminating (modelled as
the undefined-behaviour marker `none`). -/
theorem c4_scan_bug :
    ukv_scan demoEntries false true [⟨none, 10, 5⟩] 10 = ⟨none, true, none⟩ ∧
    (scan_inner (seekFrom (demoEntries none) 10) 0 5).1.map (fun w => w.1)
      = [0, 1, 2, 3, 4] ∧
    (scan_inner (seekFrom (demoEntries none) 10) 0 5).2 = 5 :=
  ⟨rfl, rfl, rfl⟩

/-- C5 is refuted by the code: opening a collection whose name does not
exist yet calls `CreateColumnFamily`, which succeeds, but the new handle
is pushed into the registry and written to `*c_col` only under
`if (export_error(status, c_error))` — i.e. only when creation FAILED.
On success the registry is unchanged, the output handle is never written,
and no error is reported. -/
theorem c5_collection_open_bug :
    ukv_collection_open [("default", 0)] (some "sub") true 7
      = ⟨[("default", 0)], none, none⟩ :=
  rfl

/-- Counterexample to C6 as stated: collection "sub" (handle 7) holds
key 1 with value [42]; after `ukv_collection_remove "sub"` the entry is
still present, so the remove did not remove the collection's entries. -/
theorem c6_remove_keeps_entries :
    (ukv_collection_remove (storePut emptyStore 7 1 [42]) [("sub", 7)]
        "sub").store 7 1 = some [42] :=
  rfl

/-- C6 amended: `ukv_collection_remove` removes no entries at all — the
store is returned exactly as it was — and merely destroys (frees) the
handle object of every registered collection whose name matches,
reporting success; in particular the default collection keeps all of its
entries. -/
theorem c6_remove_amended (st : Store) (cols : List (String × Nat))
    (name : String) :
    (ukv_collection_remove st cols name).store = st ∧
    (ukv_collection_remove st cols name).destroyed
      = (cols.filter (fun c => decide (c.1 = name))).map Prod.snd ∧
    (ukv_collection_remove st cols name).error = none := by
  induction cols with
  | nil => exact ⟨rfl, rfl, rfl⟩
  | cons c rest ih =>
    obtain ⟨ih1, ih2, ih3⟩ := ih
    by_cases h : c.1 = name
    · simp [ukv_collection_remove, h, ih1, ih2, ih3]
    · simp [ukv_collection_remove, h, ih1, ih2, ih3]

/-- C7: a read or scan issued inside a transaction without the
`read_transparent` option is refused before the arena or any output
pointer is touched: the error is set to the UNSUPPORTED diagnostic and
the length/value/key out-pointers are never written. -/
theorem c7_txn_nontransparent_refused (s : Store) (ts : List ReadTask)
    (ents : Option Nat → List (Nat × Nat)) (sts : List ScanTask) (fuel : Nat) :
    ukv_read s true false ts
      = ⟨some "RocksDB only supports transparent reads!", none, none⟩ ∧
    ukv_scan ents true false sts fuel
      = ⟨some "RocksDB only supports transparent reads!", false, none⟩ :=
  ⟨rfl, rfl⟩

/-- Counterexample to C8 as stated: when the engine open fails,
`ukv_open` sets the error AND still stores the wrapper handle into
`*c_db` (line 108 is unconditional), so a handle IS stored on a failed
open. -/
theorem c8_open_stores_handle_on_failure :
    (ukv_open false).error ≠ none ∧ (ukv_open false).db_out ≠ none := by
  decide

/-- C8 amended: a non-transactional multi-entry `ukv_write` is applied
through one atomic `WriteBatch` whose effect equals applying the entries
in order (and the singleton dispatch applies exactly its one task), and
calls report failure through the error out-pointer — but `ukv_open`
writes the database handle output unconditionally, even when the engine
open failed and the error is set. -/
theorem c8_amended_batch_and_open (s : Store) (ts : List WriteTask)
    (st : Store) (t : WriteTask) (ok : Bool) :
    (ukv_write s none ts).store = ts.foldl applyWriteTask s ∧
    (ukv_write st none [t]).store = applyWriteTask st t ∧
    (ukv_open ok).db_out = some ok ∧
    ((ukv_open ok).error = none ↔ ok = true) := by
  refine ⟨?_, rfl, rfl, ?_⟩
  · cases ts with
    | nil => rfl
    | cons t1 rest =>
      cases rest with
      | nil => rfl
      | cons t2 rest2 => exact applyBatch_write_many_batch s (t1 :: t2 :: rest2)
  · cases ok <;> simp [ukv_open]

/-- Counterexample to C9 as stated: on the one-task input reading key 5,
whose stored value is the empty byte string, the singleton fast path
reports length 0 while the batch path reports the missing sentinel —
the two paths are observably different. -/
theorem c9_singleton_paths_differ_on_empty :
    read_one (storePut emptyStore 0 5 []) ⟨none, 5⟩ = (0, []) ∧
    read_many (storePut emptyStore 0 5 []) [⟨none, 5⟩]
      = ([ukv_val_len_missing_k], []) :=
  ⟨rfl, rfl⟩

/-- C9 amended: for a single task, `write_one` and `write_many` leave the
store (or the transaction buffer) in the same final state, and `read_one`
and `read_many` report the same length and the same bytes whenever the
key is absent or its value is non-empty; they differ exactly on a present
empty value, where `read_one` reports 0 and `read_many` reports the
missing sentinel. -/
theorem c9_amended_singleton_equiv (s : Store) (t : ReadTask) (wt : WriteTask)
    (txn : Option (List BatchOp))
    (h : s (resolveCol t.col) t.key ≠ some []) :
    write_one s txn wt = write_many s txn [wt] ∧
    (read_many s [t]).1 = [(read_one s t).1] ∧
    (read_many s [t]).2 = (read_one s t).2 := by
  have hread : (read_many s [t]).1 = [(read_one s t).1] ∧
      (read_many s [t]).2 = (read_one s t).2 := by
    cases hv : s (resolveCol t.col) t.key with
    | none =>
      constructor <;>
        simp [read_many, read_one, multiGetVal, read_many_len, concatBytes, hv]
    | some v =>
      rcases v with _ | ⟨b, bs⟩
      · exact absurd hv h
      · constructor <;>
          simp [read_many, read_one, multiGetVal, read_many_len, concatBytes, hv]
  exact ⟨by cases txn <;> rfl, hread.1, hread.2⟩

/-- Witness for C9 amended at a concrete input: key 1 holds the
non-empty value [7]; the write task puts [9] under key 2. -/
theorem c9_amended_witness :
    write_one (storePut emptyStore 0 1 [7]) none ⟨none, 2, some [9]⟩
      = write_many (storePut emptyStore 0 1 [7]) none [⟨none, 2, some [9]⟩] ∧
    (read_many (storePut emptyStore 0 1 [7]) [⟨none, 1⟩]).1
      = [(read_one (storePut emptyStore 0 1 [7]) ⟨none, 1⟩).1] ∧
    (read_many (storePut emptyStore 0 1 [7]) [⟨none, 1⟩]).2
      = (read_one (storePut emptyStore 0 1 [7]) ⟨none, 1⟩).2 :=
  c9_amended_singleton_equiv (storePut emptyStore 0 1 [7]) ⟨none, 1⟩
    ⟨none, 2, some [9]⟩ none (by decide)

/-- C10 is refuted by the code: at a = b = (0, 0) the comparator
`operator<` answers true — so it is irreflexive for no strict weak order
and disagrees with the lexicographic order, which answers false — and
`operator==` answers false although the two fields agree pairwise;
moreover `operator<` answers true in BOTH directions between (1, 0) and
(0, 1), violating asymmetry. -/
theorem c10_neighborship_ops_bug :
    neighborship_lt ⟨0, 0⟩ ⟨0, 0⟩ = true ∧
    neighborship_lex_lt ⟨0, 0⟩ ⟨0, 0⟩ = false ∧
    neighborship_eq ⟨0, 0⟩ ⟨0, 0⟩ = false ∧
    neighborship_lt ⟨1, 0⟩ ⟨0, 1⟩ = true ∧
    neighborship_lt ⟨0, 1⟩ ⟨1, 0⟩ = true := by
  decide

end UStore
